import Mathlib

/-!
Verification of `run-one` (src/src/lib.rs, src/src/bin/run-one-until-fail.rs).

The program parses its argument list and environment into a `Cmd`
(program name, argument list, optional post-run delay read from the
`RUN_ONE_WAIT` environment variable), then repeatedly spawns the command
until an iteration fails, prints a diagnostic, emits a terminal bell and
exits successfully.

The embedding below translates the two source files.  Process spawning is
the only external effect of `run`; it is modelled by an oracle value
(`SpawnResult`) supplied per invocation, and the wrapper's own writes to
the standard streams are recorded as a trace.
-/

/-- `struct Cmd` of src/src/lib.rs lines 5-10: the parsed run
specification.  `wait` holds the `Option<u64>` delay; the parser only ever
stores values below `2 ^ 64` (theorem `parseU64_lt`). -/
structure Cmd where
  cmd : String
  args : List String
  wait : Option Nat
  deriving Repr, DecidableEq

/-- The two fatal errors `parse_args` can return (lib.rs lines 19 and 24):
`anyhow!("Unable to get the name of the program.")` and
`anyhow!("Unable to get the command.")`. -/
inductive ParseError where
  | MissingProgramName
  | MissingCommand
  deriving Repr, DecidableEq

/-- The source text of a digit character.  Used to state what a decimal
numeral is when reasoning about `u64::from_str`. -/
def digitChar : Nat → Char
  | 0 => '0'
  | 1 => '1'
  | 2 => '2'
  | 3 => '3'
  | 4 => '4'
  | 5 => '5'
  | 6 => '6'
  | 7 => '7'
  | 8 => '8'
  | _ => '9'

/-- Value of a digit string read most-significant first, as
`u64::from_str` accumulates it (`acc * 10 + digit`). -/
def digitsToNat (l : List Char) : Nat :=
  l.foldl (fun acc c => acc * 10 + (c.toNat - 48)) 0

/-- `u64::from_str` accepts one optional leading `'+'` sign before the
digits (a leading `'-'` is rejected for unsigned types). -/
def stripPlus (cs : List Char) : List Char :=
  match cs with
  | [] => []
  | c :: rest => if c = '+' then rest else c :: rest

/-- `str::parse::<u64>` (lib.rs line 30): an optional `'+'` sign followed
by a non-empty string of ASCII digits whose value fits in 64 bits;
anything else is an error.  Rust checks overflow at every step of the
accumulation `acc * 10 + d`, but every intermediate value is the value of
a prefix of the digit string and hence at most the final value, so the
stepwise check succeeds exactly when the final value is below `2 ^ 64`. -/
def parseU64 (s : String) : Option Nat :=
  if stripPlus s.data = [] then none
  else if (stripPlus s.data).all Char.isDigit then
    if digitsToNat (stripPlus s.data) < 2 ^ 64 then
      some (digitsToNat (stripPlus s.data))
    else none
  else none

/-- `vars.find(|(key, _)| key == "RUN_ONE_WAIT").map(|(_, val)| val)`
(lib.rs lines 27-29): the value of the first environment pair whose key
is exactly `RUN_ONE_WAIT`. -/
def findVar (vars : List (String × String)) : Option String :=
  (vars.find? fun kv => kv.1 == "RUN_ONE_WAIT").map Prod.snd

/-- Diagnostics the wrapper itself writes to its error channel. -/
inductive Diag where
  | invalidWait
  | runError (msg : String)
  | fatalError (e : ParseError)
  deriving Repr, DecidableEq

/-- What a call of `parse_args` produces: its return value, plus the
diagnostics it printed with `eprintln!` along the way. -/
structure ParseOutput where
  result : Except ParseError Cmd
  stderr : List Diag
  deriving Repr

/-- `parse_args` (lib.rs lines 12-43).  Pops the self name, pops the
command name (each failure is an early fatal return), finds the first
`RUN_ONE_WAIT` pair and parses its value as `u64`; a parse failure of the
delay only prints `Invalid value for RUN_ONE_WAIT: {e}` and leaves the
delay absent. -/
def parse_args (args : List String) (vars : List (String × String)) : ParseOutput :=
  match args with
  | [] => { result := Except.error ParseError.MissingProgramName, stderr := [] }
  | _selfName :: rest =>
    match rest with
    | [] => { result := Except.error ParseError.MissingCommand, stderr := [] }
    | c :: cargs =>
      match findVar vars with
      | none => { result := Except.ok { cmd := c, args := cargs, wait := none }, stderr := [] }
      | some val =>
        match parseU64 val with
        | some v =>
          { result := Except.ok { cmd := c, args := cargs, wait := some v }, stderr := [] }
        | none =>
          { result := Except.ok { cmd := c, args := cargs, wait := none },
            stderr := [Diag.invalidWait] }

/-- Outcome of `std::process::ExitStatus` as `run` observes it: the
boolean `status.success()` and the `Display` text interpolated into the
failure message. -/
structure ExitStatus where
  success : Bool
  display : String
  deriving Repr, DecidableEq

/-- Oracle for one `Command::new(..).spawn()` followed by `child.wait()`:
either the child ran to termination with some exit status, or spawning
failed with an OS error message. -/
inductive SpawnResult where
  | ok (status : ExitStatus)
  | err (msg : String)
  deriving Repr, DecidableEq

/-- The error value `run` returns (lib.rs lines 51-52 and 57):
`Command failed with exit code: {status}` or
`Failed to execute command: {e}`. -/
inductive RunError where
  | commandFailed (status : ExitStatus)
  | failedToExecute (msg : String)
  deriving Repr, DecidableEq

/-- Rendering of a `RunError` by `Display`, as the loop's
`eprintln!("Error: {e}")` shows it. -/
def RunError.message : RunError → String
  | RunError.commandFailed st => "Command failed with exit code: " ++ st.display
  | RunError.failedToExecute m => "Failed to execute command: " ++ m

/-- Observable effects of one `run` call, in order. -/
inductive RunEvent where
  | spawn (prog : String) (args : List String)
  | sleep (secs : Nat)
  deriving Repr, DecidableEq

/-- `run` (lib.rs lines 45-65): spawn the command and classify the result,
then — whatever that result was — sleep `wait` seconds if a delay is
present, and only then return the result.  The returned trace lists the
spawn attempt and the sleep in the order they happen. -/
def run (c : Cmd) (world : SpawnResult) : Except RunError Unit × List RunEvent :=
  let r : Except RunError Unit :=
    match world with
    | SpawnResult.ok status =>
      if status.success then Except.ok ()
      else Except.error (RunError.commandFailed status)
    | SpawnResult.err e => Except.error (RunError.failedToExecute e)
  let sleeps : List RunEvent :=
    match c.wait with
    | some w => [RunEvent.sleep w]
    | none => []
  (r, RunEvent.spawn c.cmd c.args :: sleeps)

/-- The `loop` of run-one-until-fail.rs lines 9-17, driven by one oracle
value per iteration: on `Ok` continue, on `Err(e)` print `Error: {e}` and
break.  Returns the number of `run` invocations and the diagnostics
printed, or `none` when the scripted oracle values run out before any
failure (the real loop would simply keep running). -/
def loopRun (c : Cmd) : List SpawnResult → Option (Nat × List Diag)
  | [] => none
  | w :: ws =>
    match (run c w).1 with
    | Except.ok _ => (loopRun c ws).map fun x => (x.1 + 1, x.2)
    | Except.error e => some (1, [Diag.runError e.message])

/-- Whether an `anyhow::Result<Cmd>` is the success variant. -/
def isOkResult : Except ParseError Cmd → Bool
  | Except.ok _ => true
  | Except.error _ => false

/-- Everything observable about one terminated execution of the wrapper
process: how many times `run` was invoked, what was printed to standard
error and to standard output, and whether the process exit status was
successful. -/
structure MainTrace where
  invocations : Nat
  stderr : List Diag
  stdout : String
  exitSuccess : Bool
  deriving Repr, DecidableEq

/-- `main` (run-one-until-fail.rs lines 5-22).  Parse the arguments; on a
parse error the `?` operator returns it, the runtime prints it to
standard error and the process exits unsuccessfully — the bell line is
never reached.  Otherwise run the loop until a failing iteration, print
`"\x07"` to standard output and return `Ok(())`.  `none` models the loop
never stopping (scripted oracle exhausted without a failure). -/
def mainRun (args : List String) (vars : List (String × String))
    (worlds : List SpawnResult) : Option MainTrace :=
  match (parse_args args vars).result with
  | Except.error e =>
    some { invocations := 0,
           stderr := (parse_args args vars).stderr ++ [Diag.fatalError e],
           stdout := "", exitSuccess := false }
  | Except.ok c =>
    (loopRun c worlds).map fun x =>
      { invocations := x.1, stderr := (parse_args args vars).stderr ++ x.2,
        stdout := "\x07", exitSuccess := true }

/-- Decimal digits of `n`, most significant first; `decimalNumeral n` is
the standard base-10 numeral of `n`. -/
def toDecDigits (n : Nat) : List Char :=
  if _h : n < 10 then [digitChar n]
  else toDecDigits (n / 10) ++ [digitChar (n % 10)]
decreasing_by exact Nat.div_lt_self (by omega) (by omega)

/-- The decimal numeral of a natural number. -/
def decimalNumeral (n : Nat) : String := String.mk (toDecDigits n)

/-! ### Helper lemmas about the parser -/

/-- Closed form of `parse_args` on an argument list with at least two
tokens: it always succeeds, the second token is the command, the rest are
its arguments, and the delay is the parsed value of the first
`RUN_ONE_WAIT` variable, if any. -/
theorem parse_args_cons (a b : String) (rest : List String)
    (vars : List (String × String)) :
    parse_args (a :: b :: rest) vars =
      { result := Except.ok { cmd := b, args := rest, wait := (findVar vars).bind parseU64 },
        stderr :=
          match findVar vars with
          | none => []
          | some val =>
            match parseU64 val with
            | some _ => []
            | none => [Diag.invalidWait] } := by
  cases hf : findVar vars with
  | none => simp [parse_args, hf]
  | some val => cases hp : parseU64 val <;> simp [parse_args, hf, hp]

theorem parseU64_lt (s : String) (v : Nat) (h : parseU64 s = some v) : v < 2 ^ 64 := by
  unfold parseU64 at h
  split at h
  · exact absurd h (by simp)
  · split at h
    · split at h
      · simp only [Option.some.injEq] at h
        omega
      · exact absurd h (by simp)
    · exact absurd h (by simp)

/-! ### Claims about the parser -/

/-- Claim C1, counterexample: `parse_args` succeeds on the argument list
`["run-one", ""]` even though the second token — and hence the resulting
`program` field — is the empty string, so success does not guarantee a
non-empty `program`. -/
theorem claim_C1_counterexample :
    (parse_args ["run-one", ""] []).result =
      Except.ok { cmd := "", args := [], wait := none } := rfl

/-- Claim C1 (amended): whenever `parse_args` succeeds, the `program`
field equals the second argument token, so it is non-empty exactly when
that token is non-empty; an empty second token yields an empty
`program`. -/
theorem claim_C1_amended (args : List String) (vars : List (String × String))
    (c : Cmd) (h : (parse_args args vars).result = Except.ok c) :
    args[1]? = some c.cmd ∧ (args[1]? ≠ some "" → c.cmd ≠ "") := by
  have h1 : args[1]? = some c.cmd := by
    match args with
    | [] => simp [parse_args] at h
    | [a] => simp [parse_args] at h
    | a :: b :: rest =>
      rw [parse_args_cons] at h
      simp only [Except.ok.injEq] at h
      rw [← h]
      simp
  exact ⟨h1, fun hne heq => hne (h1.trans (by rw [heq]))⟩

/-- Claim C1 witness: a concrete successful parse, with the stated
relation between the second token and `program`. -/
theorem claim_C1_witness :
    (["run-one", "ls"] : List String)[1]? = some "ls" ∧
    ((["run-one", "ls"] : List String)[1]? ≠ some "" → ("ls" : String) ≠ "") :=
  claim_C1_amended ["run-one", "ls"] [] { cmd := "ls", args := [], wait := none } rfl

/-- Claim C5: on any argument list with at least two tokens, `parse_args`
succeeds, `program` is the second token and `arguments` are the remaining
tokens in their original order, unmodified (whatever the environment
contributes as the delay). -/
theorem claim_C5 (a b : String) (rest : List String)
    (vars : List (String × String)) :
    (parse_args (a :: b :: rest) vars).result =
      Except.ok { cmd := b, args := rest, wait := (findVar vars).bind parseU64 } := by
  rw [parse_args_cons]

/-- Claim C6: `parse_args` fails exactly on argument lists with fewer than
two tokens — with `MissingProgramName` on the empty list and with
`MissingCommand` on a one-token list — and the two errors are distinct. -/
theorem claim_C6 (args : List String) (vars : List (String × String)) :
    ((∃ e, (parse_args args vars).result = Except.error e) ↔ args.length < 2) ∧
    (args = [] →
      (parse_args args vars).result = Except.error ParseError.MissingProgramName) ∧
    (args.length = 1 →
      (parse_args args vars).result = Except.error ParseError.MissingCommand) ∧
    ParseError.MissingProgramName ≠ ParseError.MissingCommand := by
  refine ⟨?_, ?_, ?_, by decide⟩
  · match args with
    | [] => simp [parse_args]
    | [a] => simp [parse_args]
    | a :: b :: rest => rw [parse_args_cons]; simp
  · intro h
    subst h
    rfl
  · intro h
    match args, h with
    | [a], _ => rfl

/-- Claim C6 witness: the two concrete failing parses. -/
theorem claim_C6_witness :
    (parse_args [] []).result = Except.error ParseError.MissingProgramName ∧
    (parse_args ["run-one"] []).result = Except.error ParseError.MissingCommand :=
  ⟨(claim_C6 [] []).2.1 rfl, (claim_C6 ["run-one"] []).2.2.1 rfl⟩

/-- Claim C7: with at least two argument tokens, the delay is determined
by the first environment pair whose key is exactly `RUN_ONE_WAIT` — if its
value parses, the delay is that value; if no pair has the key, the delay
is absent; and the first matching pair is found regardless of any later
pairs (duplicates after it are ignored). -/
theorem claim_C7 (a b : String) (rest : List String)
    (vars : List (String × String)) :
    (∀ s v, findVar vars = some s → parseU64 s = some v →
      (parse_args (a :: b :: rest) vars).result =
        Except.ok { cmd := b, args := rest, wait := some v }) ∧
    ((∀ kv ∈ vars, kv.1 ≠ "RUN_ONE_WAIT") →
      (parse_args (a :: b :: rest) vars).result =
        Except.ok { cmd := b, args := rest, wait := none }) ∧
    (∀ pre kv post, (∀ x ∈ pre, x.1 ≠ "RUN_ONE_WAIT") → kv.1 = "RUN_ONE_WAIT" →
      findVar (pre ++ kv :: post) = some kv.2) := by
  refine ⟨?_, ?_, ?_⟩
  · intro s v hs hv
    rw [parse_args_cons]
    simp [hs, hv]
  · intro hnone
    have hfind : List.find? (fun kv => kv.1 == "RUN_ONE_WAIT") vars = none :=
      List.find?_eq_none.mpr fun kv hkv => by simpa using hnone kv hkv
    have hfv : findVar vars = none := by
      unfold findVar
      rw [hfind]
      rfl
    rw [parse_args_cons]
    simp [hfv]
  · intro pre kv post hpre hkv
    induction pre with
    | nil =>
      unfold findVar
      rw [List.nil_append, List.find?_cons_of_pos _ (by simpa using hkv)]
      rfl
    | cons x xs ih =>
      have hx : (x.1 == "RUN_ONE_WAIT") = false := by
        simpa using hpre x (by simp)
      have ihx := ih fun y hy => hpre y (by simp [hy])
      unfold findVar at ihx ⊢
      simp only [List.cons_append, List.find?_cons, hx]
      exact ihx

/-- Claim C7 witness: `RUN_ONE_WAIT=5` as the first of two matching
pairs yields a delay of `5`; the later duplicate is ignored. -/
theorem claim_C7_witness :
    (parse_args ["run-one", "echo"]
        [("RUN_ONE_WAIT", "5"), ("RUN_ONE_WAIT", "7")]).result =
      Except.ok { cmd := "echo", args := [], wait := some 5 } :=
  (claim_C7 "run-one" "echo" [] [("RUN_ONE_WAIT", "5"), ("RUN_ONE_WAIT", "7")]).1
    "5" 5 rfl rfl

/-- Claim C8: when the first `RUN_ONE_WAIT` value does not parse as a
`u64` (for example a negative number), parsing still succeeds, the delay
is absent, and exactly one non-fatal diagnostic is printed to the error
channel. -/
theorem claim_C8 (a b : String) (rest : List String)
    (vars : List (String × String)) (s : String)
    (hfind : findVar vars = some s) (hbad : parseU64 s = none) :
    (parse_args (a :: b :: rest) vars).result =
      Except.ok { cmd := b, args := rest, wait := none } ∧
    (parse_args (a :: b :: rest) vars).stderr = [Diag.invalidWait] := by
  rw [parse_args_cons]
  simp [hfind, hbad]

/-- Claim C8 witness: the negative value `-1` is rejected without failing
the parse, and the diagnostic is printed. -/
theorem claim_C8_witness :
    (parse_args ["run-one", "echo"] [("RUN_ONE_WAIT", "-1")]).result =
      Except.ok { cmd := "echo", args := [], wait := none } ∧
    (parse_args ["run-one", "echo"] [("RUN_ONE_WAIT", "-1")]).stderr =
      [Diag.invalidWait] :=
  claim_C8 "run-one" "echo" [] [("RUN_ONE_WAIT", "-1")] "-1" rfl rfl

/-! ### Claims about the execute-once operation and the run loop -/

/-- Claim C3: one `run` call sleeps exactly the configured number of
seconds after the spawn attempt and before returning — whatever the
outcome was — and performs no sleep when no delay is configured; the
outcome itself is unaffected by the delay. -/
theorem claim_C3 (c : Cmd) (world : SpawnResult) :
    (∀ w, c.wait = some w →
      (run c world).2 = [RunEvent.spawn c.cmd c.args, RunEvent.sleep w]) ∧
    (c.wait = none → (run c world).2 = [RunEvent.spawn c.cmd c.args]) ∧
    (run c world).1 = (run { c with wait := none } world).1 := by
  refine ⟨?_, ?_, rfl⟩
  · intro w hw
    simp [run, hw]
  · intro hw
    simp [run, hw]

/-- Claim C3 witness: a delay of five seconds is slept even after a
spawn failure. -/
theorem claim_C3_witness :
    (run { cmd := "x", args := [], wait := some 5 } (SpawnResult.err "boom")).2 =
      [RunEvent.spawn "x" [], RunEvent.sleep 5] :=
  (claim_C3 { cmd := "x", args := [], wait := some 5 } (SpawnResult.err "boom")).1 5 rfl

/-- Claim C4: when the first failing iteration is the `k`-th one
(`k = pre.length + 1`), the loop invokes `run` exactly `k` times, prints
exactly one diagnostic, and never reaches the oracle entries after the
failure (the result is the same as if they were not there). -/
theorem claim_C4 (c : Cmd) (pre : List SpawnResult) (w : SpawnResult)
    (post : List SpawnResult)
    (hpre : ∀ x ∈ pre, (run c x).1 = Except.ok ())
    (hw : (run c w).1 ≠ Except.ok ()) :
    (∃ m, loopRun c (pre ++ w :: post) =
      some (pre.length + 1, [Diag.runError m])) ∧
    loopRun c (pre ++ w :: post) = loopRun c (pre ++ [w]) := by
  obtain ⟨e, he⟩ : ∃ e, (run c w).1 = Except.error e := by
    cases h : (run c w).1 with
    | ok u => cases u; exact absurd h hw
    | error e => exact ⟨e, rfl⟩
  induction pre with
  | nil =>
    exact ⟨⟨e.message, by simp [loopRun, he]⟩, by simp [loopRun, he]⟩
  | cons x xs ih =>
    have hx := hpre x (by simp)
    obtain ⟨⟨m, hm⟩, heq⟩ := ih fun y hy => hpre y (by simp [hy])
    refine ⟨⟨m, ?_⟩, ?_⟩
    · simp [loopRun, hx, hm]
    · simp [loopRun, hx, heq]

/-- Claim C4 witness: with a success, a success, then an execution
failure, the loop runs exactly three times, prints one diagnostic, and
the oracle entry after the failure is never consumed. -/
theorem claim_C4_witness :
    (∃ m, loopRun { cmd := "x", args := [], wait := none }
        [SpawnResult.ok { success := true, display := "exit status: 0" },
         SpawnResult.ok { success := true, display := "exit status: 0" },
         SpawnResult.ok { success := false, display := "exit status: 1" },
         SpawnResult.ok { success := true, display := "exit status: 0" }] =
      some (3, [Diag.runError m])) ∧
    loopRun { cmd := "x", args := [], wait := none }
        [SpawnResult.ok { success := true, display := "exit status: 0" },
         SpawnResult.ok { success := true, display := "exit status: 0" },
         SpawnResult.ok { success := false, display := "exit status: 1" },
         SpawnResult.ok { success := true, display := "exit status: 0" }] =
      loopRun { cmd := "x", args := [], wait := none }
        [SpawnResult.ok { success := true, display := "exit status: 0" },
         SpawnResult.ok { success := true, display := "exit status: 0" },
         SpawnResult.ok { success := false, display := "exit status: 1" }] :=
  claim_C4 { cmd := "x", args := [], wait := none }
    [SpawnResult.ok { success := true, display := "exit status: 0" },
     SpawnResult.ok { success := true, display := "exit status: 0" }]
    (SpawnResult.ok { success := false, display := "exit status: 1" })
    [SpawnResult.ok { success := true, display := "exit status: 0" }]
    (by intro x hx; simp only [List.mem_cons, List.not_mem_nil, or_false] at hx
        rcases hx with rfl | rfl <;> rfl)
    (by intro h; exact Except.noConfusion h)

/-! ### Claims about the whole process -/

/-- Claim C2, counterexample: when the process terminates because
argument parsing failed at start-up, the `?` operator returns from `main`
before the bell line is reached, so nothing at all is written to standard
output. -/
theorem claim_C2_counterexample :
    (mainRun [] [] []).map MainTrace.stdout = some "" := rfl

/-- Claim C2 (amended): on any terminating execution, exactly one
terminal bell character is the whole of the wrapper's standard output —
written after the loop stops and as the final action before exit — when
start-up parsing succeeded; when parsing fails, the process terminates
without emitting any bell. -/
theorem claim_C2_amended (args : List String) (vars : List (String × String))
    (worlds : List SpawnResult) (t : MainTrace)
    (h : mainRun args vars worlds = some t) :
    t.stdout = if isOkResult (parse_args args vars).result then "\x07" else "" := by
  unfold mainRun at h
  cases hp : (parse_args args vars).result with
  | error e =>
    rw [hp] at h
    simp only [Option.some.injEq] at h
    rw [← h]
    simp [isOkResult]
  | ok c =>
    rw [hp] at h
    rw [Option.map_eq_some'] at h
    obtain ⟨x, _, ht⟩ := h
    rw [← ht]
    simp [isOkResult]

/-- Claim C2 witness: a run whose single iteration fails to spawn emits
the bell as its entire standard output. -/
theorem claim_C2_witness :
    MainTrace.stdout
        { invocations := 1,
          stderr := [Diag.runError "Failed to execute command: boom"],
          stdout := "\x07", exitSuccess := true } =
      if isOkResult (parse_args ["run-one", "x"] []).result then "\x07" else "" :=
  claim_C2_amended ["run-one", "x"] [] [SpawnResult.err "boom"]
    { invocations := 1,
      stderr := [Diag.runError "Failed to execute command: boom"],
      stdout := "\x07", exitSuccess := true } rfl

/-- Claim C9: on any terminating execution the wrapper's exit status is
successful exactly when start-up parsing succeeded — the failing child's
status never reaches the exit code — and a parse failure terminates the
process unsuccessfully with its descriptive message as the only output on
the error channel, before any child is ever spawned. -/
theorem claim_C9 (args : List String) (vars : List (String × String))
    (worlds : List SpawnResult) (t : MainTrace)
    (h : mainRun args vars worlds = some t) :
    t.exitSuccess = isOkResult (parse_args args vars).result ∧
    (∀ e, (parse_args args vars).result = Except.error e →
      t.exitSuccess = false ∧ t.invocations = 0 ∧
      t.stderr = [Diag.fatalError e]) := by
  unfold mainRun at h
  cases hp : (parse_args args vars).result with
  | error e =>
    rw [hp] at h
    simp only [Option.some.injEq] at h
    rw [← h]
    have hstderr : (parse_args args vars).stderr = [] := by
      match args, hp with
      | [], _ => rfl
      | [a], _ => rfl
      | a :: b :: rest, hp => rw [parse_args_cons] at hp; exact absurd hp (by simp)
    refine ⟨by simp [isOkResult], ?_⟩
    intro f hf
    obtain rfl : e = f := by injection hf
    simp [hstderr]
  | ok c =>
    rw [hp] at h
    rw [Option.map_eq_some'] at h
    obtain ⟨x, _, ht⟩ := h
    rw [← ht]
    refine ⟨by simp [isOkResult], ?_⟩
    intro f hf
    exact absurd hf (by simp)

/-- Claim C9 witness: a one-token argument list makes the process exit
unsuccessfully with the `MissingCommand` message and zero spawned
children. -/
theorem claim_C9_witness :
    MainTrace.exitSuccess
        { invocations := 0, stderr := [Diag.fatalError ParseError.MissingCommand],
          stdout := "", exitSuccess := false } = false ∧
    MainTrace.invocations
        { invocations := 0, stderr := [Diag.fatalError ParseError.MissingCommand],
          stdout := "", exitSuccess := false } = 0 ∧
    MainTrace.stderr
        { invocations := 0, stderr := [Diag.fatalError ParseError.MissingCommand],
          stdout := "", exitSuccess := false } =
      [Diag.fatalError ParseError.MissingCommand] :=
  (claim_C9 ["run-one"] [] []
      { invocations := 0, stderr := [Diag.fatalError ParseError.MissingCommand],
        stdout := "", exitSuccess := false } rfl).2
    ParseError.MissingCommand rfl

/-! ### Decimal numerals and the accepted range of the delay -/

theorem digitsToNat_append (l : List Char) (c : Char) :
    digitsToNat (l ++ [c]) = digitsToNat l * 10 + (c.toNat - 48) := by
  simp [digitsToNat, List.foldl_append]

theorem digitChar_toNat (d : Nat) (h : d < 10) : (digitChar d).toNat - 48 = d := by
  interval_cases d <;> rfl

theorem digitChar_isDigit (d : Nat) (h : d < 10) : (digitChar d).isDigit = true := by
  interval_cases d <;> decide

theorem digitsToNat_toDecDigits (n : Nat) : digitsToNat (toDecDigits n) = n := by
  induction n using Nat.strong_induction_on with
  | _ n ih =>
    unfold toDecDigits
    split
    · next h => simp [digitsToNat, digitChar_toNat n h]
    · next h =>
      rw [digitsToNat_append, ih (n / 10) (Nat.div_lt_self (by omega) (by omega)),
        digitChar_toNat (n % 10) (Nat.mod_lt n (by omega))]
      omega

theorem toDecDigits_isDigit (n : Nat) : (toDecDigits n).all Char.isDigit = true := by
  induction n using Nat.strong_induction_on with
  | _ n ih =>
    unfold toDecDigits
    split
    · next h => simp [digitChar_isDigit n h]
    · next h =>
      rw [List.all_append]
      simp [ih (n / 10) (Nat.div_lt_self (by omega) (by omega)),
        digitChar_isDigit (n % 10) (Nat.mod_lt n (by omega))]

theorem toDecDigits_ne_nil (n : Nat) : toDecDigits n ≠ [] := by
  unfold toDecDigits
  split
  · simp
  · simp

theorem stripPlus_of_digits (cs : List Char) (h : cs.all Char.isDigit = true) :
    stripPlus cs = cs := by
  cases cs with
  | nil => rfl
  | cons c t =>
    have hc : c.isDigit = true := by
      simp only [List.all_cons, Bool.and_eq_true] at h
      exact h.1
    have hne : ¬(c = '+') := by
      intro hEq
      rw [hEq] at hc
      exact absurd hc (by decide)
    simp [stripPlus, hne]

/-- `u64::from_str` on the decimal numeral of `n` succeeds with value `n`
exactly when `n` fits in 64 bits, and reports an overflow otherwise. -/
theorem parseU64_decimalNumeral (n : Nat) :
    parseU64 (decimalNumeral n) = if n < 2 ^ 64 then some n else none := by
  have hd := toDecDigits_isDigit n
  unfold parseU64 decimalNumeral
  simp only [stripPlus_of_digits _ hd]
  rw [if_neg (toDecDigits_ne_nil n), if_pos hd, digitsToNat_toDecDigits]

/-- Claim C10: a `RUN_ONE_WAIT` value that is the decimal numeral of an
integer of `2 ^ 64` or more is rejected — the delay is treated as absent
and the invalid-value diagnostic is printed — while every value from `0`
to `2 ^ 64 - 1` is accepted verbatim: the accepted range is exactly the
`u64` range. -/
theorem claim_C10 (a b : String) (rest : List String)
    (vars : List (String × String)) (n : Nat)
    (hfind : findVar vars = some (decimalNumeral n)) (hn : 2 ^ 64 ≤ n) :
    (parse_args (a :: b :: rest) vars).result =
      Except.ok { cmd := b, args := rest, wait := none } ∧
    (parse_args (a :: b :: rest) vars).stderr = [Diag.invalidWait] ∧
    (∀ s v, parseU64 s = some v → v < 2 ^ 64) ∧
    (∀ v, v < 2 ^ 64 → parseU64 (decimalNumeral v) = some v) := by
  have hbad : parseU64 (decimalNumeral n) = none := by
    rw [parseU64_decimalNumeral, if_neg (by omega)]
  rw [parse_args_cons]
  exact ⟨by simp [hfind, hbad], by simp [hfind, hbad], parseU64_lt, fun v hv => by
    rw [parseU64_decimalNumeral, if_pos hv]⟩

/-- Claim C10 witness: the numeral of `2 ^ 64` itself is rejected with
the diagnostic, while the in-range value `5` is accepted. -/
theorem claim_C10_witness :
    (parse_args ["run-one", "x"] [("RUN_ONE_WAIT", decimalNumeral (2 ^ 64))]).result =
      Except.ok { cmd := "x", args := [], wait := none } ∧
    (parse_args ["run-one", "x"] [("RUN_ONE_WAIT", decimalNumeral (2 ^ 64))]).stderr =
      [Diag.invalidWait] ∧
    parseU64 (decimalNumeral 5) = some 5 :=
  ⟨(claim_C10 "run-one" "x" [] [("RUN_ONE_WAIT", decimalNumeral (2 ^ 64))] (2 ^ 64)
      rfl (Nat.le_refl _)).1,
   (claim_C10 "run-one" "x" [] [("RUN_ONE_WAIT", decimalNumeral (2 ^ 64))] (2 ^ 64)
      rfl (Nat.le_refl _)).2.1,
   (claim_C10 "run-one" "x" [] [("RUN_ONE_WAIT", decimalNumeral (2 ^ 64))] (2 ^ 64)
      rfl (Nat.le_refl _)).2.2.2 5 (by norm_num)⟩
